import Mathlib

/-!
Shallow embedding of `server/controllers/waterTestController.js`.

The controller is a set of Express request handlers over a Prisma store.
We model JavaScript request-body values with `JSValue` (so that JS
truthiness, `String(...)` coercion and `typeof` checks are explicit),
the database as an explicit `DB` state, and the external collaborators
(SMS, WhatsApp, health card) through an `Env` of oracles that say which
calls reject.  Each handler becomes a pure function from the request and
the state to the response, the new state, and the list of notification
attempts made.
-/

set_option autoImplicit false

/-- A JavaScript value as it can appear in a JSON request body or a DB column. -/
inductive JSValue where
  | undef
  | null
  | bool (b : Bool)
  | num (n : Int)
  | str (s : String)
  deriving DecidableEq, Repr

/-- JavaScript truthiness of a value (`if (v)`). -/
def jsTruthy : JSValue → Bool
  | JSValue.undef => false
  | JSValue.null => false
  | JSValue.bool b => b
  | JSValue.num n => n != 0
  | JSValue.str s => s != ""

/-- JavaScript `String(v)` coercion. -/
def jsToString : JSValue → String
  | JSValue.undef => "undefined"
  | JSValue.null => "null"
  | JSValue.bool b => if b then "true" else "false"
  | JSValue.num n => toString n
  | JSValue.str s => s

/-- `String.prototype.toLowerCase()`, modelled as character-wise ASCII
lowercasing. -/
def toLowerStr (s : String) : String := ⟨s.data.map Char.toLower⟩

/-- The regex `^\+\d\x7b10,15\x7d$` from the controller: a `+` followed by
10 to 15 decimal digits. -/
def matchesE164 (s : String) : Bool :=
  match s.data with
  | [] => false
  | c :: rest =>
    c == '+' && rest.all (fun d => d.isDigit) &&
      decide (10 ≤ rest.length) && decide (rest.length ≤ 15)

/-- `isValidPhoneNumber` from `createWaterTest` (lines 72-74):
`typeof number === "string" && /^\+\d\x7b10,15\x7d$/.test(number)`. -/
def isValidPhoneNumber : JSValue → Bool
  | JSValue.str s => matchesE164 s
  | _ => false

/-- A persisted `WaterTest` row. -/
structure WaterTestRec where
  id : Nat
  waterbodyName : JSValue
  waterbodyId : JSValue
  dateTime : JSValue
  location : JSValue
  latitude : JSValue
  longitude : JSValue
  photoUrl : JSValue
  notes : JSValue
  quality : String
  ashaId : String
  createdAt : Nat
  deriving DecidableEq, Repr

/-- A persisted `User` row (only the columns the controller reads). -/
structure UserRec where
  id : String
  role : String
  number : JSValue
  deriving DecidableEq, Repr

/-- A persisted `LeaderAlert` row. -/
structure LeaderAlertRec where
  leaderId : String
  message : String
  waterTestId : Nat
  deriving DecidableEq, Repr

/-- A persisted `GlobalAlert` row. -/
structure GlobalAlertRec where
  message : String
  waterTestId : Nat
  deriving DecidableEq, Repr

/-- The Prisma store state, plus the id/timestamp generators. -/
structure DB where
  waterTests : List WaterTestRec
  users : List UserRec
  leaderAlerts : List LeaderAlertRec
  globalAlerts : List GlobalAlertRec
  nextId : Nat
  now : Nat
  deriving DecidableEq, Repr

/-- The authenticated caller (`req.user`), attached by upstream middleware. -/
structure Caller where
  id : String
  role : String
  deriving DecidableEq, Repr

/-- The JSON body of a create or update request: each field is a `JSValue`,
`undef` when the field is omitted. -/
structure Body where
  waterbodyName : JSValue := JSValue.undef
  waterbodyId : JSValue := JSValue.undef
  dateTime : JSValue := JSValue.undef
  location : JSValue := JSValue.undef
  latitude : JSValue := JSValue.undef
  longitude : JSValue := JSValue.undef
  photoUrl : JSValue := JSValue.undef
  notes : JSValue := JSValue.undef
  quality : JSValue := JSValue.undef
  deriving DecidableEq, Repr

/-- A JSON response body. -/
inductive RespBody where
  | message (s : String)
  | waterTest (id : Nat)
  | items (l : List WaterTestRec)
  | deleted
  deriving DecidableEq, Repr

/-- An HTTP response: status code plus JSON body. -/
structure Resp where
  status : Nat
  body : RespBody
  deriving DecidableEq, Repr

/-- One notification attempt handed to `sendSMSWrapper` / `sendWhatsAppWrapper`. -/
inductive Attempt where
  | sms (number : String) (msg : String)
  | whatsapp (number : String) (msg : String)
  deriving DecidableEq, Repr

/-- The phone number a notification attempt targets. -/
def attemptNumber : Attempt → String
  | Attempt.sms n _ => n
  | Attempt.whatsapp n _ => n

/-- The argument object built for `createOrUpdateHealthCard` (lines 136-145). -/
structure HealthCardReq where
  waterbodyName : JSValue
  waterbodyId : JSValue
  location : JSValue
  latitude : JSValue
  longitude : JSValue
  userId : String
  userRole : String
  deriving DecidableEq, Repr

/-- The external collaborators: which SMS / WhatsApp sends reject (as a
function of number and message), the health-card upsert outcome, and the
locale date formatter `toLocaleString("en-IN", ...)`. -/
structure Env where
  smsFails : String → String → Bool
  waFails : String → String → Bool
  healthCard : HealthCardReq → Except String Unit
  formatDate : String → String

/-- The required-fields guard of `createWaterTest` (lines 21-28):
`!waterbodyName || !dateTime || !location || !photoUrl || !notes || !quality`. -/
def missingRequired (b : Body) : Bool :=
  !jsTruthy b.waterbodyName || !jsTruthy b.dateTime || !jsTruthy b.location ||
    !jsTruthy b.photoUrl || !jsTruthy b.notes || !jsTruthy b.quality

/-- The role guard of `createWaterTest` (line 36). -/
def roleAllowed (role : String) : Bool :=
  ["asha", "admin", "leader"].contains role

/-- The quality whitelist (lines 41 and 193). -/
def qualityOk (q : String) : Bool :=
  ["good", "medium", "high"].contains q

/-- The 400 message of the required-fields guard (lines 29-33). -/
def requiredFieldsMsg : String :=
  "waterbodyName, dateTime, location, photoUrl, notes, quality are required"

/-- The `WaterTest` row inserted by `prisma.waterTest.create` (lines 45-58). -/
def newRecord (user : Caller) (b : Body) (db : DB) : WaterTestRec :=
  { id := db.nextId
    waterbodyName := b.waterbodyName
    waterbodyId := if jsTruthy b.waterbodyId then b.waterbodyId else JSValue.null
    dateTime := b.dateTime
    location := b.location
    latitude := match b.latitude with | JSValue.num n => JSValue.num n | _ => JSValue.null
    longitude := match b.longitude with | JSValue.num n => JSValue.num n | _ => JSValue.null
    photoUrl := b.photoUrl
    notes := b.notes
    quality := toLowerStr (jsToString b.quality)
    ashaId := user.id
    createdAt := db.now }

/-- The in-app message of a `LeaderAlert` row (line 87). -/
def leaderAlertMessage (wb : JSValue) : String :=
  "⚠️ Medium Water Quality at " ++ jsToString wb

/-- The `GlobalAlert` message (line 109). -/
def globalAlertMessage (wb : JSValue) : String :=
  "🚨 High Risk Water Quality detected at " ++ jsToString wb

/-- The SMS/WhatsApp template of the medium branch (lines 95-98). -/
def mediumAlertMessage (wb loc : JSValue) (fd : String) : String :=
  "⚠️ Medium Water Quality Alert\nWaterbody: " ++ jsToString wb ++
    "\nLocation: " ++ jsToString loc ++ "\nDate: " ++ fd

/-- The SMS/WhatsApp template of the high branch (lines 120-123). -/
def highAlertMessage (wb loc : JSValue) (fd : String) : String :=
  "🚨 HIGH RISK ALERT\nWaterbody: " ++ jsToString wb ++
    "\nLocation: " ++ jsToString loc ++ "\nDate: " ++ fd

/-- The health-card cascade (lines 134-153): `createOrUpdateHealthCard` is
awaited inside its own `try`; both outcomes fall through to the same
success response, a thrown error being only logged. -/
def healthCardCascade (env : Env) (hreq : HealthCardReq) (resp : Resp) : Resp :=
  match env.healthCard hreq with
  | Except.ok _ => resp
  | Except.error _ => resp

/-- The sequential notification loop (lines 93-105 and 118-130): for each
recipient with a truthy, valid number, await the SMS send then the WhatsApp
send.  A rejected send throws, aborting the loop; the result carries the
attempts made so far (`Except.error` when a send rejected, `Except.ok` when
the loop completed). -/
def fanOut (env : Env) (msg : String) : List UserRec → Except (List Attempt) (List Attempt)
  | [] => Except.ok []
  | u :: rest =>
    if jsTruthy u.number && isValidPhoneNumber u.number then
      if env.smsFails (jsToString u.number) msg then
        Except.error [Attempt.sms (jsToString u.number) msg]
      else if env.waFails (jsToString u.number) msg then
        Except.error [Attempt.sms (jsToString u.number) msg,
                      Attempt.whatsapp (jsToString u.number) msg]
      else
        match fanOut env msg rest with
        | Except.ok as =>
          Except.ok (Attempt.sms (jsToString u.number) msg ::
            Attempt.whatsapp (jsToString u.number) msg :: as)
        | Except.error as =>
          Except.error (Attempt.sms (jsToString u.number) msg ::
            Attempt.whatsapp (jsToString u.number) msg :: as)
    else fanOut env msg rest

/-- `createWaterTest` (lines 7-158): validate, authorize, persist, alert
fan-out by quality tier, best-effort health-card cascade, respond.  The
third component of the result is the list of notification attempts. -/
def createWaterTest (env : Env) (user : Caller) (b : Body) (db : DB) :
    Resp × DB × List Attempt :=
  if missingRequired b then
    (⟨400, RespBody.message requiredFieldsMsg⟩, db, [])
  else if !roleAllowed user.role then
    (⟨403, RespBody.message "forbidden"⟩, db, [])
  else
    let normalizedQuality := toLowerStr (jsToString b.quality)
    if !qualityOk normalizedQuality then
      (⟨400, RespBody.message "invalid quality"⟩, db, [])
    else
      let record := newRecord user b db
      let db1 : DB := { db with
        waterTests := db.waterTests ++ [record]
        nextId := db.nextId + 1
        now := db.now + 1 }
      let formattedDate := env.formatDate (jsToString b.dateTime)
      let afterAlerts : Except (DB × List Attempt) (DB × List Attempt) :=
        if normalizedQuality == "medium" then
          let leaders := db1.users.filter (fun u => u.role == "leader")
          let db2 : DB :=
            if leaders.length > 0 then
              { db1 with leaderAlerts := db1.leaderAlerts ++ leaders.map (fun l =>
                  { leaderId := l.id
                    message := leaderAlertMessage record.waterbodyName
                    waterTestId := record.id }) }
            else db1
          match fanOut env (mediumAlertMessage record.waterbodyName b.location formattedDate) leaders with
          | Except.ok as => Except.ok (db2, as)
          | Except.error as => Except.error (db2, as)
        else if normalizedQuality == "high" then
          let db2 : DB := { db1 with
            globalAlerts := db1.globalAlerts ++
              [{ message := globalAlertMessage record.waterbodyName
                 waterTestId := record.id }] }
          match fanOut env (highAlertMessage record.waterbodyName b.location formattedDate) db2.users with
          | Except.ok as => Except.ok (db2, as)
          | Except.error as => Except.error (db2, as)
        else Except.ok (db1, [])
      match afterAlerts with
      | Except.error (db2, as) =>
        (⟨500, RespBody.message "Internal Server Error"⟩, db2, as)
      | Except.ok (db2, as) =>
        (healthCardCascade env
          { waterbodyName := record.waterbodyName
            waterbodyId := record.waterbodyId
            location := record.location
            latitude := record.latitude
            longitude := record.longitude
            userId := user.id
            userRole := user.role }
          ⟨201, RespBody.waterTest record.id⟩, db2, as)

/-- The partial `data` object an update builds (lines 181-196): `none`
means the column is left untouched by `prisma.waterTest.update`. -/
structure Patch where
  waterbodyName : Option JSValue := none
  waterbodyId : Option JSValue := none
  dateTime : Option JSValue := none
  location : Option JSValue := none
  latitude : Option JSValue := none
  longitude : Option JSValue := none
  photoUrl : Option JSValue := none
  notes : Option JSValue := none
  quality : Option String := none
  deriving DecidableEq, Repr

/-- Builds the `data` object of `updateWaterTest` (lines 181-196).  Each
field enters the patch only under the guard the source uses for it;
an invalid supplied quality aborts with the 400 message. -/
def buildData (b : Body) : Except String Patch :=
  let d : Patch := {
    waterbodyName := if jsTruthy b.waterbodyName then some b.waterbodyName else none
    waterbodyId :=
      if b.waterbodyId ≠ JSValue.undef then
        some (if jsTruthy b.waterbodyId then b.waterbodyId else JSValue.null)
      else none
    dateTime := if jsTruthy b.dateTime then some b.dateTime else none
    location := if jsTruthy b.location then some b.location else none
    latitude := match b.latitude with | JSValue.num n => some (JSValue.num n) | _ => none
    longitude := match b.longitude with | JSValue.num n => some (JSValue.num n) | _ => none
    photoUrl := if jsTruthy b.photoUrl then some b.photoUrl else none
    notes := if jsTruthy b.notes then some b.notes else none
    quality := none }
  if jsTruthy b.quality then
    let q := toLowerStr (jsToString b.quality)
    if qualityOk q then Except.ok { d with quality := some q }
    else Except.error "invalid quality"
  else Except.ok d

/-- `prisma.waterTest.update`'s merge of a patch into a row: a column in
the patch overwrites, an absent column keeps the stored value. -/
def applyData (r : WaterTestRec) (d : Patch) : WaterTestRec :=
  { r with
    waterbodyName := d.waterbodyName.getD r.waterbodyName
    waterbodyId := d.waterbodyId.getD r.waterbodyId
    dateTime := d.dateTime.getD r.dateTime
    location := d.location.getD r.location
    latitude := d.latitude.getD r.latitude
    longitude := d.longitude.getD r.longitude
    photoUrl := d.photoUrl.getD r.photoUrl
    notes := d.notes.getD r.notes
    quality := d.quality.getD r.quality }

/-- `updateWaterTest` (lines 160-204): lookup, ownership check, patch. -/
def updateWaterTest (user : Caller) (id : Nat) (b : Body) (db : DB) : Resp × DB :=
  match db.waterTests.find? (fun w => w.id == id) with
  | none => (⟨404, RespBody.message "water test not found"⟩, db)
  | some existing =>
    if !(user.role == "admin" || user.id == existing.ashaId) then
      (⟨403, RespBody.message "forbidden"⟩, db)
    else
      match buildData b with
      | Except.error m => (⟨400, RespBody.message m⟩, db)
      | Except.ok d =>
        (⟨200, RespBody.waterTest (applyData existing d).id⟩,
         { db with waterTests := db.waterTests.map (fun w =>
             if w.id == id then applyData w d else w) })

/-- `deleteWaterTest` (lines 206-221): lookup, ownership check, delete. -/
def deleteWaterTest (user : Caller) (id : Nat) (db : DB) : Resp × DB :=
  match db.waterTests.find? (fun w => w.id == id) with
  | none => (⟨404, RespBody.message "water test not found"⟩, db)
  | some existing =>
    if !(user.role == "admin" || user.id == existing.ashaId) then
      (⟨403, RespBody.message "forbidden"⟩, db)
    else
      (⟨200, RespBody.deleted⟩,
       { db with waterTests := db.waterTests.filter (fun w => !(w.id == id)) })

/-- Insert a row into a list sorted by `createdAt` descending. -/
def insertByCreatedAtDesc (w : WaterTestRec) : List WaterTestRec → List WaterTestRec
  | [] => [w]
  | x :: xs =>
    if x.createdAt ≤ w.createdAt then w :: x :: xs
    else x :: insertByCreatedAtDesc w xs

/-- Prisma's `orderBy: \x7b createdAt: "desc" \x7d`. -/
def sortByCreatedAtDesc : List WaterTestRec → List WaterTestRec
  | [] => []
  | x :: xs => insertByCreatedAtDesc x (sortByCreatedAtDesc xs)

/-- `listAllWaterTests` (lines 223-235): admin only, all rows newest first. -/
def listAllWaterTests (user : Caller) (db : DB) : Resp :=
  if !(user.role == "admin") then ⟨403, RespBody.message "forbidden"⟩
  else ⟨200, RespBody.items (sortByCreatedAtDesc db.waterTests)⟩

/-- `getUserWaterTests` (lines 238-249): the caller's own rows, newest first. -/
def getUserWaterTests (user : Caller) (db : DB) : Resp :=
  ⟨200, RespBody.items (sortByCreatedAtDesc
    (db.waterTests.filter (fun w => w.ashaId == user.id)))⟩

/-- `getWaterTestsByUser` (lines 251-263): the caller's own rows, newest first. -/
def getWaterTestsByUser (user : Caller) (db : DB) : Resp :=
  ⟨200, RespBody.items (sortByCreatedAtDesc
    (db.waterTests.filter (fun w => w.ashaId == user.id)))⟩

/-! ### Derived-state abbreviations used by the theorems -/

/-- The notification attempts a fan-out made, whether it completed or threw. -/
def attemptsOf : Except (List Attempt) (List Attempt) → List Attempt
  | Except.ok as => as
  | Except.error as => as

/-- The response after a fan-out: the success response if the loop
completed, the generic 500 if a send rejected. -/
def fanOutResp (ok : Resp) : Except (List Attempt) (List Attempt) → Resp
  | Except.ok _ => ok
  | Except.error _ => ⟨500, RespBody.message "Internal Server Error"⟩

/-- The store after a successful medium-quality create: the new row plus
one `LeaderAlert` per leader. -/
def dbAfterMedium (user : Caller) (b : Body) (db : DB) : DB :=
  { db with
    waterTests := db.waterTests ++ [newRecord user b db]
    leaderAlerts := db.leaderAlerts ++
      (db.users.filter (fun u => u.role == "leader")).map (fun l =>
        { leaderId := l.id
          message := leaderAlertMessage b.waterbodyName
          waterTestId := db.nextId })
    nextId := db.nextId + 1
    now := db.now + 1 }

/-- The store after a successful high-quality create: the new row plus one
`GlobalAlert`. -/
def dbAfterHigh (user : Caller) (b : Body) (db : DB) : DB :=
  { db with
    waterTests := db.waterTests ++ [newRecord user b db]
    globalAlerts := db.globalAlerts ++
      [{ message := globalAlertMessage b.waterbodyName
         waterTestId := db.nextId }]
    nextId := db.nextId + 1
    now := db.now + 1 }

/-- The store after a good-quality create: only the new row. -/
def dbAfterGood (user : Caller) (b : Body) (db : DB) : DB :=
  { db with
    waterTests := db.waterTests ++ [newRecord user b db]
    nextId := db.nextId + 1
    now := db.now + 1 }

/-! ### Concrete fixtures, used by the witness theorems -/

/-- Collaborators that never reject. -/
def envW : Env :=
  { smsFails := fun _ _ => false
    waFails := fun _ _ => false
    healthCard := fun _ => Except.ok ()
    formatDate := fun s => s }

/-- Collaborators where the health-card upsert always throws. -/
def envHC : Env := { envW with healthCard := fun _ => Except.error "boom" }

/-- Collaborators where every SMS send rejects. -/
def envSF : Env := { envW with smsFails := fun _ _ => true }

/-- A leader with a valid E.164 number (the spec's scenario). -/
def leaderValid : UserRec := ⟨"L1", "leader", JSValue.str "+911234567890"⟩

/-- A leader with an invalid number (the spec's scenario). -/
def leaderInvalid : UserRec := ⟨"L2", "leader", JSValue.str "invalid"⟩

/-- An asha user with a valid number. -/
def ashaUser : UserRec := ⟨"A1", "asha", JSValue.str "+911111111111"⟩

/-- The asha caller owning the fixture records. -/
def callerAsha : Caller := ⟨"A1", "asha"⟩

/-- An admin caller. -/
def callerAdmin : Caller := ⟨"AD", "admin"⟩

/-- A caller whose role is outside every whitelist and who owns nothing. -/
def callerOther : Caller := ⟨"X9", "clerk"⟩

/-- An empty store with two leaders and one asha registered. -/
def dbW : DB := ⟨[], [leaderValid, leaderInvalid, ashaUser], [], [], 1, 0⟩

/-- A complete create body with quality "Medium". -/
def bodyMed : Body :=
  { waterbodyName := JSValue.str "Lake"
    dateTime := JSValue.str "2025-09-11"
    location := JSValue.str "Village"
    photoUrl := JSValue.str "http://p"
    notes := JSValue.str "n"
    quality := JSValue.str "Medium" }

/-- The same body with quality "HIGH". -/
def bodyHigh : Body := { bodyMed with quality := JSValue.str "HIGH" }

/-- The same body with quality "good". -/
def bodyGood : Body := { bodyMed with quality := JSValue.str "good" }

/-- The same body with a quality outside the whitelist. -/
def bodyBadQ : Body := { bodyMed with quality := JSValue.str "terrible" }

/-- A store already holding one record owned by the asha caller. -/
def dbU : DB :=
  { dbW with waterTests := [newRecord callerAsha bodyMed dbW], nextId := 2, now := 1 }

/-- A patch body: new location, numeric latitude, waterbodyId present but
falsy, everything else omitted. -/
def bodyPatch : Body :=
  { location := JSValue.str "NewLoc"
    latitude := JSValue.num 12
    waterbodyId := JSValue.str "" }

/-- The patch `buildData` produces from `bodyPatch`. -/
def patchW : Patch :=
  { location := some (JSValue.str "NewLoc")
    latitude := some (JSValue.num 12)
    waterbodyId := some JSValue.null }

/-- The medium-branch SMS/WhatsApp text of the `bodyMed` fixture under
`envSF`. -/
def msgMedW : String :=
  mediumAlertMessage bodyMed.waterbodyName bodyMed.location
    (envSF.formatDate (jsToString bodyMed.dateTime))

/-- The high-branch SMS/WhatsApp text of the `bodyHigh` fixture under
`envSF`. -/
def msgHighW : String :=
  highAlertMessage bodyHigh.waterbodyName bodyHigh.location
    (envSF.formatDate (jsToString bodyHigh.dateTime))
/-! ### Helper lemmas -/

/-- Every attempt a fan-out makes targets the truthy, valid number of some
recipient in the list. -/
theorem fanOut_attempts_valid (env : Env) (msg : String) :
    ∀ us : List UserRec, ∀ a ∈ attemptsOf (fanOut env msg us),
      ∃ u ∈ us, jsTruthy u.number = true ∧ isValidPhoneNumber u.number = true ∧
        attemptNumber a = jsToString u.number := by
  intro us
  induction us with
  | nil => intro a ha; simp [fanOut, attemptsOf] at ha
  | cons u rest ih =>
    intro a ha
    rw [fanOut] at ha
    by_cases hc : (jsTruthy u.number && isValidPhoneNumber u.number) = true
    · rw [if_pos hc] at ha
      simp only [Bool.and_eq_true] at hc
      by_cases hs : env.smsFails (jsToString u.number) msg = true
      · rw [if_pos hs] at ha
        simp only [attemptsOf, List.mem_singleton] at ha
        exact ⟨u, List.mem_cons_self u rest, hc.1, hc.2, by simp [ha, attemptNumber]⟩
      · rw [if_neg hs] at ha
        by_cases hw : env.waFails (jsToString u.number) msg = true
        · rw [if_pos hw] at ha
          simp only [attemptsOf, List.mem_cons, List.not_mem_nil, or_false] at ha
          rcases ha with ha | ha <;>
            exact ⟨u, List.mem_cons_self u rest, hc.1, hc.2, by simp [ha, attemptNumber]⟩
        · rw [if_neg hw] at ha
          rcases hrest : fanOut env msg rest with as | as <;>
            rw [hrest] at ha <;>
            simp only [attemptsOf, List.mem_cons] at ha <;>
            (rcases ha with ha | ha | ha
             · exact ⟨u, List.mem_cons_self u rest, hc.1, hc.2, by simp [ha, attemptNumber]⟩
             · exact ⟨u, List.mem_cons_self u rest, hc.1, hc.2, by simp [ha, attemptNumber]⟩
             · obtain ⟨v, hv, h1, h2, h3⟩ := ih a (by rw [hrest]; exact ha)
               exact ⟨v, List.mem_cons_of_mem u hv, h1, h2, h3⟩)
    · rw [if_neg hc] at ha
      obtain ⟨v, hv, h1, h2, h3⟩ := ih a ha
      exact ⟨v, List.mem_cons_of_mem u hv, h1, h2, h3⟩

/-- When no send ever rejects, the fan-out loop completes. -/
theorem fanOut_ok_of_no_failures (env : Env) (msg : String)
    (hs : ∀ n m, env.smsFails n m = false) (hw : ∀ n m, env.waFails n m = false) :
    ∀ us : List UserRec, ∃ as, fanOut env msg us = Except.ok as := by
  intro us
  induction us with
  | nil => exact ⟨[], rfl⟩
  | cons u rest ih =>
    obtain ⟨as, has⟩ := ih
    rw [fanOut]
    by_cases hc : (jsTruthy u.number && isValidPhoneNumber u.number) = true
    · rw [if_pos hc, hs, hw]
      simp only [if_neg Bool.false_ne_true, has]
      exact ⟨_, rfl⟩
    · rw [if_neg hc]
      exact ⟨as, has⟩

/-- A send rejection aborts the loop: if the loop succeeds on a prefix and
the next recipient's send rejects, the whole fan-out throws with exactly
the prefix's attempts plus the attempts at the failing recipient. -/
theorem fanOut_error_append (env : Env) (msg : String) (u : UserRec) (us₂ : List UserRec)
    (ht : jsTruthy u.number = true) (hv : isValidPhoneNumber u.number = true)
    (hf : (env.smsFails (jsToString u.number) msg || env.waFails (jsToString u.number) msg) = true) :
    ∀ (us₁ : List UserRec) (as₁ : List Attempt), fanOut env msg us₁ = Except.ok as₁ →
      fanOut env msg (us₁ ++ u :: us₂) =
        Except.error (as₁ ++
          (if env.smsFails (jsToString u.number) msg then [Attempt.sms (jsToString u.number) msg]
           else [Attempt.sms (jsToString u.number) msg, Attempt.whatsapp (jsToString u.number) msg])) := by
  intro us₁
  induction us₁ with
  | nil =>
    intro as₁ h1
    simp only [fanOut] at h1
    cases h1
    simp only [List.nil_append]
    rw [fanOut, if_pos (by simp [ht, hv])]
    by_cases hs : env.smsFails (jsToString u.number) msg = true
    · rw [if_pos hs, if_pos hs]
    · rw [if_neg hs, if_pos (by simpa [hs] using hf), if_neg hs]
  | cons v vs ih =>
    intro as₁ h1
    rw [fanOut] at h1
    rw [List.cons_append, fanOut]
    by_cases hc : (jsTruthy v.number && isValidPhoneNumber v.number) = true
    · rw [if_pos hc] at h1 ⊢
      by_cases hvs : env.smsFails (jsToString v.number) msg = true
      · rw [if_pos hvs] at h1; cases h1
      · rw [if_neg hvs] at h1 ⊢
        by_cases hvw : env.waFails (jsToString v.number) msg = true
        · rw [if_pos hvw] at h1; cases h1
        · rw [if_neg hvw] at h1 ⊢
          rcases hrest : fanOut env msg vs with as | as <;> rw [hrest] at h1
          · cases h1
          · cases h1
            rw [ih as hrest]
            simp
    · rw [if_neg hc] at h1 ⊢
      exact ih as₁ h1

/-- The health-card cascade never changes the response, whatever the
collaborator does. -/
theorem healthCardCascade_eq (env : Env) (hreq : HealthCardReq) (resp : Resp) :
    healthCardCascade env hreq resp = resp := by
  rw [healthCardCascade]
  cases env.healthCard hreq <;> rfl

/-- Shape of a good-quality create. -/
theorem create_good_spec (env : Env) (user : Caller) (b : Body) (db : DB)
    (hm : missingRequired b = false) (hr : roleAllowed user.role = true)
    (hq : toLowerStr (jsToString b.quality) = "good") :
    createWaterTest env user b db =
      (⟨201, RespBody.waterTest db.nextId⟩, dbAfterGood user b db, []) := by
  simp [createWaterTest, hm, hr, hq, qualityOk, healthCardCascade_eq, dbAfterGood, newRecord]

/-- Shape of a medium-quality create, as a function of the fan-out outcome. -/
theorem create_medium_spec (env : Env) (user : Caller) (b : Body) (db : DB)
    (hm : missingRequired b = false) (hr : roleAllowed user.role = true)
    (hq : toLowerStr (jsToString b.quality) = "medium") :
    createWaterTest env user b db =
      (fanOutResp ⟨201, RespBody.waterTest db.nextId⟩
         (fanOut env (mediumAlertMessage b.waterbodyName b.location
             (env.formatDate (jsToString b.dateTime)))
           (db.users.filter (fun u => u.role == "leader"))),
       dbAfterMedium user b db,
       attemptsOf
         (fanOut env (mediumAlertMessage b.waterbodyName b.location
             (env.formatDate (jsToString b.dateTime)))
           (db.users.filter (fun u => u.role == "leader")))) := by
  rcases hf : fanOut env (mediumAlertMessage b.waterbodyName b.location
      (env.formatDate (jsToString b.dateTime)))
      (db.users.filter (fun u => u.role == "leader")) with as | as <;>
    rcases hL : db.users.filter (fun u => u.role == "leader") with _ | ⟨l, ls⟩ <;>
      rw [hL] at hf <;>
        simp [createWaterTest, hm, hr, hq, qualityOk, healthCardCascade_eq,
          dbAfterMedium, newRecord, hL, hf, fanOutResp, attemptsOf]

/-- Shape of a high-quality create, as a function of the fan-out outcome. -/
theorem create_high_spec (env : Env) (user : Caller) (b : Body) (db : DB)
    (hm : missingRequired b = false) (hr : roleAllowed user.role = true)
    (hq : toLowerStr (jsToString b.quality) = "high") :
    createWaterTest env user b db =
      (fanOutResp ⟨201, RespBody.waterTest db.nextId⟩
         (fanOut env (highAlertMessage b.waterbodyName b.location
             (env.formatDate (jsToString b.dateTime))) db.users),
       dbAfterHigh user b db,
       attemptsOf
         (fanOut env (highAlertMessage b.waterbodyName b.location
             (env.formatDate (jsToString b.dateTime))) db.users)) := by
  rcases hf : fanOut env (highAlertMessage b.waterbodyName b.location
      (env.formatDate (jsToString b.dateTime))) db.users with as | as <;>
    simp [createWaterTest, hm, hr, hq, qualityOk, healthCardCascade_eq,
      dbAfterHigh, newRecord, hf, fanOutResp, attemptsOf]

/-- C1: for every create whose quality normalizes to "medium", exactly one
LeaderAlert is created per user with role "leader", each referencing the
new test, and SMS/WhatsApp sends are attempted only for leaders whose
number is truthy and matches the E.164 regex; other leaders are skipped
for delivery but still appear in the LeaderAlert rows. -/
theorem mediumCreateAlertsLeaders (env : Env) (user : Caller) (b : Body) (db : DB)
    (hm : missingRequired b = false) (hr : roleAllowed user.role = true)
    (hq : toLowerStr (jsToString b.quality) = "medium") :
    (createWaterTest env user b db).2.1.leaderAlerts =
      db.leaderAlerts ++ (db.users.filter (fun u => u.role == "leader")).map (fun l =>
        { leaderId := l.id
          message := "⚠️ Medium Water Quality at " ++ jsToString b.waterbodyName
          waterTestId := db.nextId }) ∧
    ∀ a ∈ (createWaterTest env user b db).2.2,
      ∃ u ∈ db.users.filter (fun u => u.role == "leader"),
        jsTruthy u.number = true ∧ isValidPhoneNumber u.number = true ∧
        attemptNumber a = jsToString u.number := by
  rw [create_medium_spec env user b db hm hr hq]
  exact ⟨rfl, fun a ha => fanOut_attempts_valid env _ _ a ha⟩

/-- C1 witness: the spec's scenario, two leaders with numbers
"+911234567890" and "invalid". -/
theorem mediumCreateAlertsLeaders_witness :
    missingRequired bodyMed = false ∧ roleAllowed callerAsha.role = true ∧
    toLowerStr (jsToString bodyMed.quality) = "medium" ∧
    ((createWaterTest envW callerAsha bodyMed dbW).2.1.leaderAlerts =
      dbW.leaderAlerts ++ (dbW.users.filter (fun u => u.role == "leader")).map (fun l =>
        { leaderId := l.id
          message := "⚠️ Medium Water Quality at " ++ jsToString bodyMed.waterbodyName
          waterTestId := dbW.nextId }) ∧
     ∀ a ∈ (createWaterTest envW callerAsha bodyMed dbW).2.2,
       ∃ u ∈ dbW.users.filter (fun u => u.role == "leader"),
         jsTruthy u.number = true ∧ isValidPhoneNumber u.number = true ∧
         attemptNumber a = jsToString u.number) :=
  ⟨by decide, by decide, by decide,
   mediumCreateAlertsLeaders envW callerAsha bodyMed dbW (by decide) (by decide) (by decide)⟩

/-- C2: for every create whose quality normalizes to "high", exactly one
GlobalAlert is created, its message being the high-risk banner followed by
the waterbody name, and sends are attempted only for users (of any role)
with a truthy number matching the E.164 regex. -/
theorem highCreateGlobalAlert (env : Env) (user : Caller) (b : Body) (db : DB)
    (hm : missingRequired b = false) (hr : roleAllowed user.role = true)
    (hq : toLowerStr (jsToString b.quality) = "high") :
    (createWaterTest env user b db).2.1.globalAlerts =
      db.globalAlerts ++
        [{ message := "🚨 High Risk Water Quality detected at " ++ jsToString b.waterbodyName
           waterTestId := db.nextId }] ∧
    ∀ a ∈ (createWaterTest env user b db).2.2,
      ∃ u ∈ db.users, jsTruthy u.number = true ∧ isValidPhoneNumber u.number = true ∧
        attemptNumber a = jsToString u.number := by
  rw [create_high_spec env user b db hm hr hq]
  exact ⟨rfl, fun a ha => fanOut_attempts_valid env _ _ a ha⟩

/-- C2 witness: create with quality "HIGH" over the three-user store. -/
theorem highCreateGlobalAlert_witness :
    missingRequired bodyHigh = false ∧ roleAllowed callerAsha.role = true ∧
    toLowerStr (jsToString bodyHigh.quality) = "high" ∧
    ((createWaterTest envW callerAsha bodyHigh dbW).2.1.globalAlerts =
      dbW.globalAlerts ++
        [{ message := "🚨 High Risk Water Quality detected at " ++ jsToString bodyHigh.waterbodyName
           waterTestId := dbW.nextId }] ∧
     ∀ a ∈ (createWaterTest envW callerAsha bodyHigh dbW).2.2,
       ∃ u ∈ dbW.users, jsTruthy u.number = true ∧ isValidPhoneNumber u.number = true ∧
         attemptNumber a = jsToString u.number) :=
  ⟨by decide, by decide, by decide,
   highCreateGlobalAlert envW callerAsha bodyHigh dbW (by decide) (by decide) (by decide)⟩

/-- C3: a valid create whose quality normalizes to "good" creates no
LeaderAlert, no GlobalAlert and makes no SMS or WhatsApp attempt. -/
theorem goodCreateNoAlerts (env : Env) (user : Caller) (b : Body) (db : DB)
    (hm : missingRequired b = false) (hr : roleAllowed user.role = true)
    (hq : toLowerStr (jsToString b.quality) = "good") :
    (createWaterTest env user b db).2.1.leaderAlerts = db.leaderAlerts ∧
    (createWaterTest env user b db).2.1.globalAlerts = db.globalAlerts ∧
    (createWaterTest env user b db).2.2 = [] := by
  rw [create_good_spec env user b db hm hr hq]
  exact ⟨rfl, rfl, rfl⟩

/-- C3 witness: create with quality "good" over the three-user store. -/
theorem goodCreateNoAlerts_witness :
    missingRequired bodyGood = false ∧ roleAllowed callerAsha.role = true ∧
    toLowerStr (jsToString bodyGood.quality) = "good" ∧
    ((createWaterTest envW callerAsha bodyGood dbW).2.1.leaderAlerts = dbW.leaderAlerts ∧
     (createWaterTest envW callerAsha bodyGood dbW).2.1.globalAlerts = dbW.globalAlerts ∧
     (createWaterTest envW callerAsha bodyGood dbW).2.2 = []) :=
  ⟨by decide, by decide, by decide,
   goodCreateNoAlerts envW callerAsha bodyGood dbW (by decide) (by decide) (by decide)⟩

/-- The quality whitelist, spelt out. -/
theorem qualityOk_cases (q : String) (h : qualityOk q = true) :
    q = "good" ∨ q = "medium" ∨ q = "high" := by
  simp only [qualityOk, List.contains, List.elem_eq_mem, decide_eq_true_eq,
    List.mem_cons, List.not_mem_nil, or_false] at h
  simpa using h

/-- Whatever the quality tier and the collaborator outcomes, a create that
passes the guards persists exactly the new row. -/
theorem create_waterTests_eq (env : Env) (user : Caller) (b : Body) (db : DB)
    (hm : missingRequired b = false) (hr : roleAllowed user.role = true)
    (hq : qualityOk (toLowerStr (jsToString b.quality)) = true) :
    (createWaterTest env user b db).2.1.waterTests =
      db.waterTests ++ [newRecord user b db] := by
  rcases qualityOk_cases _ hq with h | h | h
  · rw [create_good_spec env user b db hm hr h]; rfl
  · rw [create_medium_spec env user b db hm hr h]; rfl
  · rw [create_high_spec env user b db hm hr h]; rfl

/-- A truthy quality outside the whitelist makes `buildData` abort. -/
theorem buildData_error (b : Body) (ht : jsTruthy b.quality = true)
    (hq : qualityOk (toLowerStr (jsToString b.quality)) = false) :
    buildData b = Except.error "invalid quality" := by
  simp only [buildData]
  rw [if_pos ht, if_neg (by simp [hq])]

/-- A quality passing the whitelist (or absent) makes `buildData` succeed,
and determines every field of the resulting patch. -/
theorem buildData_ok_fields (b : Body) (d : Patch) (h : buildData b = Except.ok d) :
    d.waterbodyName = (if jsTruthy b.waterbodyName then some b.waterbodyName else none) ∧
    d.waterbodyId =
      (if b.waterbodyId ≠ JSValue.undef then
        some (if jsTruthy b.waterbodyId then b.waterbodyId else JSValue.null)
       else none) ∧
    d.dateTime = (if jsTruthy b.dateTime then some b.dateTime else none) ∧
    d.location = (if jsTruthy b.location then some b.location else none) ∧
    d.latitude = (match b.latitude with | JSValue.num n => some (JSValue.num n) | _ => none) ∧
    d.longitude = (match b.longitude with | JSValue.num n => some (JSValue.num n) | _ => none) ∧
    d.photoUrl = (if jsTruthy b.photoUrl then some b.photoUrl else none) ∧
    d.notes = (if jsTruthy b.notes then some b.notes else none) ∧
    d.quality = (if jsTruthy b.quality then some (toLowerStr (jsToString b.quality)) else none) := by
  simp only [buildData] at h
  by_cases ht : jsTruthy b.quality = true
  · rw [if_pos ht] at h
    by_cases hq : qualityOk (toLowerStr (jsToString b.quality)) = true
    · rw [if_pos hq] at h
      cases h
      simp [ht]
    · rw [if_neg hq] at h
      cases h
  · rw [if_neg ht] at h
    cases h
    simp [ht]

/-- C4 counterexample: in update, a supplied falsy quality (the number 0,
whose lowercased string form "0" is outside the whitelist) is not rejected:
the request succeeds with 200 instead of failing with 400. -/
theorem updateFalsyQualityNotRejected :
    jsTruthy (JSValue.num 0) = false ∧
    qualityOk (toLowerStr (jsToString (JSValue.num 0))) = false ∧
    (updateWaterTest callerAdmin 1 { quality := JSValue.num 0 } dbU).1.status = 200 := by
  decide

/-- C4 (amended): in create (for any truthy required fields) and in update
(for an existing record, an authorized caller and a truthy supplied
quality), quality is normalized to lowercase before storage, and a truthy
quality whose lowercased form is outside the whitelist yields 400
"invalid quality" with the store untouched. -/
theorem qualityNormalizedCaseInsensitive :
    (∀ (env : Env) (user : Caller) (b : Body) (db : DB),
      missingRequired b = false → roleAllowed user.role = true →
      ((qualityOk (toLowerStr (jsToString b.quality)) = false →
          createWaterTest env user b db = (⟨400, RespBody.message "invalid quality"⟩, db, [])) ∧
       (qualityOk (toLowerStr (jsToString b.quality)) = true →
          (createWaterTest env user b db).2.1.waterTests =
            db.waterTests ++ [newRecord user b db] ∧
          (newRecord user b db).quality = toLowerStr (jsToString b.quality)))) ∧
    (∀ (user : Caller) (id : Nat) (b : Body) (db : DB) (ex : WaterTestRec),
      db.waterTests.find? (fun w => w.id == id) = some ex →
      (user.role == "admin" || user.id == ex.ashaId) = true →
      jsTruthy b.quality = true →
      ((qualityOk (toLowerStr (jsToString b.quality)) = false →
          updateWaterTest user id b db = (⟨400, RespBody.message "invalid quality"⟩, db)) ∧
       (qualityOk (toLowerStr (jsToString b.quality)) = true →
          ∃ d, buildData b = Except.ok d ∧
            d.quality = some (toLowerStr (jsToString b.quality)) ∧
            updateWaterTest user id b db =
              (⟨200, RespBody.waterTest (applyData ex d).id⟩,
               { db with waterTests := db.waterTests.map (fun w =>
                   if w.id == id then applyData w d else w) })))) := by
  constructor
  · intro env user b db hm hr
    constructor
    · intro hq
      simp [createWaterTest, hm, hr, hq]
    · intro hq
      exact ⟨create_waterTests_eq env user b db hm hr hq, rfl⟩
  · intro user id b db ex hfind hauth ht
    constructor
    · intro hq
      simp [updateWaterTest, hfind, hauth, buildData_error b ht hq]
    · intro hq
      obtain ⟨d, hd⟩ : ∃ d, buildData b = Except.ok d := by
        simp only [buildData]
        rw [if_pos ht, if_pos hq]
        exact ⟨_, rfl⟩
      refine ⟨d, hd, ?_, ?_⟩
      · rw [(buildData_ok_fields b d hd).2.2.2.2.2.2.2.2, if_pos ht]
      · simp [updateWaterTest, hfind, hauth, hd]

/-- C4 witness: quality "terrible" is rejected with 400; quality "HIGH"
normalizes to "high" in the stored row; quality "Medium" updates an
existing row to "medium". -/
theorem qualityNormalizedCaseInsensitive_witness :
    (missingRequired bodyBadQ = false ∧ roleAllowed callerAsha.role = true ∧
     qualityOk (toLowerStr (jsToString bodyBadQ.quality)) = false ∧
     createWaterTest envW callerAsha bodyBadQ dbW =
       (⟨400, RespBody.message "invalid quality"⟩, dbW, [])) ∧
    (qualityOk (toLowerStr (jsToString bodyHigh.quality)) = true ∧
     (createWaterTest envW callerAsha bodyHigh dbW).2.1.waterTests =
       dbW.waterTests ++ [newRecord callerAsha bodyHigh dbW] ∧
     (newRecord callerAsha bodyHigh dbW).quality = "high") ∧
    (jsTruthy (JSValue.str "Medium") = true ∧
     ∃ d, buildData { quality := JSValue.str "Medium" } = Except.ok d ∧
       d.quality = some "medium") := by
  refine ⟨⟨by decide, by decide, by decide, ?_⟩, ⟨by decide, ?_, by decide⟩, by decide, ?_⟩
  · exact (qualityNormalizedCaseInsensitive.1 envW callerAsha bodyBadQ dbW
      (by decide) (by decide)).1 (by decide)
  · exact ((qualityNormalizedCaseInsensitive.1 envW callerAsha bodyHigh dbW
      (by decide) (by decide)).2 (by decide)).1
  · obtain ⟨d, hd, hdq, -⟩ :=
      ((qualityNormalizedCaseInsensitive.2 callerAdmin 1 { quality := JSValue.str "Medium" } dbU
        (newRecord callerAsha bodyMed dbW) (by decide) (by decide) (by decide)).2 (by decide))
    exact ⟨d, hd, hdq⟩

/-- C6: an update or delete of an existing record by a caller who is
neither admin nor the record's owner answers 403 and leaves the store
untouched. -/
theorem updateDeleteForbiddenUnchanged (user : Caller) (id : Nat) (b : Body) (db : DB)
    (ex : WaterTestRec)
    (hfind : db.waterTests.find? (fun w => w.id == id) = some ex)
    (hauth : (user.role == "admin" || user.id == ex.ashaId) = false) :
    updateWaterTest user id b db = (⟨403, RespBody.message "forbidden"⟩, db) ∧
    deleteWaterTest user id db = (⟨403, RespBody.message "forbidden"⟩, db) := by
  constructor <;> simp [updateWaterTest, deleteWaterTest, hfind, hauth]

/-- C6 witness: a clerk who owns nothing gets 403 on both update and
delete, with the store unchanged. -/
theorem updateDeleteForbiddenUnchanged_witness :
    dbU.waterTests.find? (fun w => w.id == 1) = some (newRecord callerAsha bodyMed dbW) ∧
    (callerOther.role == "admin" || callerOther.id == (newRecord callerAsha bodyMed dbW).ashaId)
      = false ∧
    (updateWaterTest callerOther 1 {} dbU = (⟨403, RespBody.message "forbidden"⟩, dbU) ∧
     deleteWaterTest callerOther 1 dbU = (⟨403, RespBody.message "forbidden"⟩, dbU)) :=
  ⟨by decide, by decide,
   updateDeleteForbiddenUnchanged callerOther 1 {} dbU (newRecord callerAsha bodyMed dbW)
     (by decide) (by decide)⟩

/-- C8: the two "list own records" handlers are extensionally equal, and
both answer 200 with the caller's rows sorted by creation time descending. -/
theorem listOwnHandlersEquivalent (user : Caller) (db : DB) :
    getUserWaterTests user db = getWaterTestsByUser user db ∧
    getUserWaterTests user db =
      ⟨200, RespBody.items (sortByCreatedAtDesc
        (db.waterTests.filter (fun w => w.ashaId == user.id)))⟩ :=
  ⟨rfl, rfl⟩

/-- C9: a create missing a required field answers the 400 naming the
required fields even when the caller's role is outside the whitelist;
in particular it is not a 403. -/
theorem requiredCheckBeforeRoleCheck (env : Env) (user : Caller) (b : Body) (db : DB)
    (hm : missingRequired b = true) (_hr : roleAllowed user.role = false) :
    createWaterTest env user b db = (⟨400, RespBody.message requiredFieldsMsg⟩, db, []) ∧
    (createWaterTest env user b db).1.status ≠ 403 := by
  have h : createWaterTest env user b db = (⟨400, RespBody.message requiredFieldsMsg⟩, db, []) := by
    simp [createWaterTest, hm]
  exact ⟨h, by rw [h]; simp⟩

/-- C9 witness: a clerk sending only a waterbody name gets the
required-fields 400, not a 403. -/
theorem requiredCheckBeforeRoleCheck_witness :
    missingRequired { waterbodyName := JSValue.str "Lake" } = true ∧
    roleAllowed callerOther.role = false ∧
    (createWaterTest envW callerOther { waterbodyName := JSValue.str "Lake" } dbW =
       (⟨400, RespBody.message requiredFieldsMsg⟩, dbW, []) ∧
     (createWaterTest envW callerOther { waterbodyName := JSValue.str "Lake" } dbW).1.status ≠ 403) :=
  ⟨by decide, by decide,
   requiredCheckBeforeRoleCheck envW callerOther { waterbodyName := JSValue.str "Lake" } dbW
     (by decide) (by decide)⟩

/-- C5: patch semantics of update.  For an existing record and an
authorized caller whose patch passes the quality check: the stored row is
the merge of the old row with the patch; an omitted or falsy string field
leaves the stored value unchanged; latitude and longitude are taken only
from a strictly numeric input; and a waterbodyId that is present but falsy
clears the column to null. -/
theorem updatePatchFrameConditions (user : Caller) (id : Nat) (b : Body) (db : DB)
    (ex : WaterTestRec) (d : Patch)
    (hfind : db.waterTests.find? (fun w => w.id == id) = some ex)
    (hauth : (user.role == "admin" || user.id == ex.ashaId) = true)
    (hbuild : buildData b = Except.ok d) :
    updateWaterTest user id b db =
      (⟨200, RespBody.waterTest (applyData ex d).id⟩,
       { db with waterTests := db.waterTests.map (fun w =>
           if w.id == id then applyData w d else w) }) ∧
    (jsTruthy b.waterbodyName = false → (applyData ex d).waterbodyName = ex.waterbodyName) ∧
    (jsTruthy b.dateTime = false → (applyData ex d).dateTime = ex.dateTime) ∧
    (jsTruthy b.location = false → (applyData ex d).location = ex.location) ∧
    (jsTruthy b.photoUrl = false → (applyData ex d).photoUrl = ex.photoUrl) ∧
    (jsTruthy b.notes = false → (applyData ex d).notes = ex.notes) ∧
    (jsTruthy b.quality = false → (applyData ex d).quality = ex.quality) ∧
    (∀ n : Int, b.latitude = JSValue.num n → (applyData ex d).latitude = JSValue.num n) ∧
    ((∀ n : Int, b.latitude ≠ JSValue.num n) → (applyData ex d).latitude = ex.latitude) ∧
    (∀ n : Int, b.longitude = JSValue.num n → (applyData ex d).longitude = JSValue.num n) ∧
    ((∀ n : Int, b.longitude ≠ JSValue.num n) → (applyData ex d).longitude = ex.longitude) ∧
    (b.waterbodyId = JSValue.undef → (applyData ex d).waterbodyId = ex.waterbodyId) ∧
    (b.waterbodyId ≠ JSValue.undef → jsTruthy b.waterbodyId = false →
      (applyData ex d).waterbodyId = JSValue.null) := by
  obtain ⟨hwn, hwid, hdt, hloc, hlat, hlon, hph, hnt, hq⟩ := buildData_ok_fields b d hbuild
  refine ⟨by simp [updateWaterTest, hfind, hauth, hbuild], ?_, ?_, ?_, ?_, ?_, ?_, ?_, ?_, ?_, ?_, ?_, ?_⟩
  · intro h; simp [applyData, hwn, h]
  · intro h; simp [applyData, hdt, h]
  · intro h; simp [applyData, hloc, h]
  · intro h; simp [applyData, hph, h]
  · intro h; simp [applyData, hnt, h]
  · intro h; simp [applyData, hq, h]
  · intro n h; simp [applyData, hlat, h]
  · intro h
    have : d.latitude = none := by
      rw [hlat]
      cases hbl : b.latitude with
      | num n => exact absurd hbl (h n)
      | _ => rfl
    simp [applyData, this]
  · intro n h; simp [applyData, hlon, h]
  · intro h
    have : d.longitude = none := by
      rw [hlon]
      cases hbl : b.longitude with
      | num n => exact absurd hbl (h n)
      | _ => rfl
    simp [applyData, this]
  · intro h; simp [applyData, hwid, h]
  · intro h1 h2; simp [applyData, hwid, h1, h2]

/-- C5 witness: patch with a new location, numeric latitude 12 and a
present-but-falsy waterbodyId, applied to the fixture record. -/
theorem updatePatchFrameConditions_witness :
    dbU.waterTests.find? (fun w => w.id == 1) = some (newRecord callerAsha bodyMed dbW) ∧
    (callerAsha.role == "admin" || callerAsha.id == (newRecord callerAsha bodyMed dbW).ashaId)
      = true ∧
    buildData bodyPatch = Except.ok patchW ∧
    (jsTruthy bodyPatch.notes = false →
      (applyData (newRecord callerAsha bodyMed dbW) patchW).notes =
        (newRecord callerAsha bodyMed dbW).notes) ∧
    (∀ n : Int, bodyPatch.latitude = JSValue.num n →
      (applyData (newRecord callerAsha bodyMed dbW) patchW).latitude = JSValue.num n) ∧
    (bodyPatch.waterbodyId ≠ JSValue.undef → jsTruthy bodyPatch.waterbodyId = false →
      (applyData (newRecord callerAsha bodyMed dbW) patchW).waterbodyId = JSValue.null) := by
  have h := updatePatchFrameConditions callerAsha 1 bodyPatch dbU
    (newRecord callerAsha bodyMed dbW) patchW (by decide) (by decide) (by rfl)
  exact ⟨by decide, by decide, by rfl, h.2.2.2.2.2.1, h.2.2.2.2.2.2.2.1, h.2.2.2.2.2.2.2.2.2.2.2.2⟩

/-- C7: when the health-card upsert collaborator throws, the failure is
swallowed: the already-persisted WaterTest stays and the handler still
answers 201 carrying only the new record's id.  (The no-send-failure
hypotheses make every guarded create reach the cascade.) -/
theorem healthCardFailureIsolated (env : Env) (user : Caller) (b : Body) (db : DB)
    (hm : missingRequired b = false) (hr : roleAllowed user.role = true)
    (hq : qualityOk (toLowerStr (jsToString b.quality)) = true)
    (hs : ∀ n m, env.smsFails n m = false) (hw : ∀ n m, env.waFails n m = false)
    (_hhc : ∀ r, ∃ e, env.healthCard r = Except.error e) :
    (createWaterTest env user b db).1 = ⟨201, RespBody.waterTest db.nextId⟩ ∧
    (createWaterTest env user b db).2.1.waterTests =
      db.waterTests ++ [newRecord user b db] := by
  refine ⟨?_, create_waterTests_eq env user b db hm hr hq⟩
  rcases qualityOk_cases _ hq with h | h | h
  · rw [create_good_spec env user b db hm hr h]
  · obtain ⟨as, has⟩ := fanOut_ok_of_no_failures env
      (mediumAlertMessage b.waterbodyName b.location (env.formatDate (jsToString b.dateTime)))
      hs hw (db.users.filter (fun u => u.role == "leader"))
    rw [create_medium_spec env user b db hm hr h, has]
    rfl
  · obtain ⟨as, has⟩ := fanOut_ok_of_no_failures env
      (highAlertMessage b.waterbodyName b.location (env.formatDate (jsToString b.dateTime)))
      hs hw db.users
    rw [create_high_spec env user b db hm hr h, has]
    rfl

/-- C7 witness: a good-quality create against a health-card collaborator
that always throws still answers 201 and keeps the new row. -/
theorem healthCardFailureIsolated_witness :
    missingRequired bodyGood = false ∧ roleAllowed callerAsha.role = true ∧
    qualityOk (toLowerStr (jsToString bodyGood.quality)) = true ∧
    (∀ n m, envHC.smsFails n m = false) ∧ (∀ n m, envHC.waFails n m = false) ∧
    (∀ r, ∃ e, envHC.healthCard r = Except.error e) ∧
    ((createWaterTest envHC callerAsha bodyGood dbW).1 =
       ⟨201, RespBody.waterTest dbW.nextId⟩ ∧
     (createWaterTest envHC callerAsha bodyGood dbW).2.1.waterTests =
       dbW.waterTests ++ [newRecord callerAsha bodyGood dbW]) :=
  ⟨by decide, by decide, by decide, fun _ _ => rfl, fun _ _ => rfl, fun _ => ⟨"boom", rfl⟩,
   healthCardFailureIsolated envHC callerAsha bodyGood dbW (by decide) (by decide) (by decide)
     (fun _ _ => rfl) (fun _ _ => rfl) (fun _ => ⟨"boom", rfl⟩)⟩


/-- C10: if a send rejects during the create fan-out loop — in the medium
branch over the leaders, or in the high branch over all users — the loop
aborts: the attempts list stops at the rejecting recipient, so the
remaining recipients are never contacted, and the handler answers 500,
yet the WaterTest row and the LeaderAlert / GlobalAlert rows inserted
before the loop remain persisted. -/
theorem sendFailureAbortsFanOutButPersists :
    (∀ (env : Env) (user : Caller) (b : Body) (db : DB)
       (u : UserRec) (us₁ us₂ : List UserRec) (as₁ : List Attempt),
      missingRequired b = false → roleAllowed user.role = true →
      toLowerStr (jsToString b.quality) = "medium" →
      db.users.filter (fun w => w.role == "leader") = us₁ ++ u :: us₂ →
      fanOut env (mediumAlertMessage b.waterbodyName b.location
        (env.formatDate (jsToString b.dateTime))) us₁ = Except.ok as₁ →
      jsTruthy u.number = true → isValidPhoneNumber u.number = true →
      (env.smsFails (jsToString u.number)
          (mediumAlertMessage b.waterbodyName b.location (env.formatDate (jsToString b.dateTime))) ||
        env.waFails (jsToString u.number)
          (mediumAlertMessage b.waterbodyName b.location (env.formatDate (jsToString b.dateTime))))
        = true →
      (createWaterTest env user b db =
        (⟨500, RespBody.message "Internal Server Error"⟩,
         dbAfterMedium user b db,
         as₁ ++
           (if env.smsFails (jsToString u.number)
                (mediumAlertMessage b.waterbodyName b.location
                  (env.formatDate (jsToString b.dateTime))) then
              [Attempt.sms (jsToString u.number)
                (mediumAlertMessage b.waterbodyName b.location
                  (env.formatDate (jsToString b.dateTime)))]
            else
              [Attempt.sms (jsToString u.number)
                (mediumAlertMessage b.waterbodyName b.location
                  (env.formatDate (jsToString b.dateTime))),
               Attempt.whatsapp (jsToString u.number)
                (mediumAlertMessage b.waterbodyName b.location
                  (env.formatDate (jsToString b.dateTime)))])) ∧
       (dbAfterMedium user b db).waterTests = db.waterTests ++ [newRecord user b db] ∧
       (dbAfterMedium user b db).leaderAlerts =
         db.leaderAlerts ++ (db.users.filter (fun w => w.role == "leader")).map (fun l =>
           { leaderId := l.id
             message := leaderAlertMessage b.waterbodyName
             waterTestId := db.nextId }))) ∧
    (∀ (env : Env) (user : Caller) (b : Body) (db : DB)
       (u : UserRec) (us₁ us₂ : List UserRec) (as₁ : List Attempt),
      missingRequired b = false → roleAllowed user.role = true →
      toLowerStr (jsToString b.quality) = "high" →
      db.users = us₁ ++ u :: us₂ →
      fanOut env (highAlertMessage b.waterbodyName b.location
        (env.formatDate (jsToString b.dateTime))) us₁ = Except.ok as₁ →
      jsTruthy u.number = true → isValidPhoneNumber u.number = true →
      (env.smsFails (jsToString u.number)
          (highAlertMessage b.waterbodyName b.location (env.formatDate (jsToString b.dateTime))) ||
        env.waFails (jsToString u.number)
          (highAlertMessage b.waterbodyName b.location (env.formatDate (jsToString b.dateTime))))
        = true →
      (createWaterTest env user b db =
        (⟨500, RespBody.message "Internal Server Error"⟩,
         dbAfterHigh user b db,
         as₁ ++
           (if env.smsFails (jsToString u.number)
                (highAlertMessage b.waterbodyName b.location
                  (env.formatDate (jsToString b.dateTime))) then
              [Attempt.sms (jsToString u.number)
                (highAlertMessage b.waterbodyName b.location
                  (env.formatDate (jsToString b.dateTime)))]
            else
              [Attempt.sms (jsToString u.number)
                (highAlertMessage b.waterbodyName b.location
                  (env.formatDate (jsToString b.dateTime))),
               Attempt.whatsapp (jsToString u.number)
                (highAlertMessage b.waterbodyName b.location
                  (env.formatDate (jsToString b.dateTime)))])) ∧
       (dbAfterHigh user b db).waterTests = db.waterTests ++ [newRecord user b db] ∧
       (dbAfterHigh user b db).globalAlerts =
         db.globalAlerts ++
           [{ message := "🚨 High Risk Water Quality detected at " ++ jsToString b.waterbodyName
              waterTestId := db.nextId }])) := by
  constructor
  · intro env user b db u us₁ us₂ as₁ hm hr hq hsplit hok ht hv hf
    have herr := fanOut_error_append env
      (mediumAlertMessage b.waterbodyName b.location (env.formatDate (jsToString b.dateTime)))
      u us₂ ht hv hf us₁ as₁ hok
    refine ⟨?_, rfl, rfl⟩
    rw [create_medium_spec env user b db hm hr hq, hsplit, herr]
    rfl
  · intro env user b db u us₁ us₂ as₁ hm hr hq hsplit hok ht hv hf
    have herr := fanOut_error_append env
      (highAlertMessage b.waterbodyName b.location (env.formatDate (jsToString b.dateTime)))
      u us₂ ht hv hf us₁ as₁ hok
    refine ⟨?_, rfl, rfl⟩
    rw [create_high_spec env user b db hm hr hq, hsplit, herr]
    rfl

/-- C10 witness: with every SMS send rejecting, the medium create over the
two-leader store and the high create over the three-user store each abort
at the first valid recipient — a single SMS attempt, a 500 response, and
the row plus the already-inserted alert rows persisted. -/
theorem sendFailureAbortsFanOutButPersists_witness :
    (missingRequired bodyMed = false ∧ roleAllowed callerAsha.role = true ∧
     toLowerStr (jsToString bodyMed.quality) = "medium" ∧
     dbW.users.filter (fun w => w.role == "leader") = [] ++ leaderValid :: [leaderInvalid] ∧
     fanOut envSF msgMedW [] = Except.ok [] ∧
     jsTruthy leaderValid.number = true ∧ isValidPhoneNumber leaderValid.number = true ∧
     (envSF.smsFails (jsToString leaderValid.number) msgMedW ||
       envSF.waFails (jsToString leaderValid.number) msgMedW) = true ∧
     createWaterTest envSF callerAsha bodyMed dbW =
       (⟨500, RespBody.message "Internal Server Error"⟩,
        dbAfterMedium callerAsha bodyMed dbW,
        [] ++
          (if envSF.smsFails (jsToString leaderValid.number) msgMedW then
             [Attempt.sms (jsToString leaderValid.number) msgMedW]
           else
             [Attempt.sms (jsToString leaderValid.number) msgMedW,
              Attempt.whatsapp (jsToString leaderValid.number) msgMedW]))) ∧
    (missingRequired bodyHigh = false ∧ roleAllowed callerAsha.role = true ∧
     toLowerStr (jsToString bodyHigh.quality) = "high" ∧
     dbW.users = [] ++ leaderValid :: [leaderInvalid, ashaUser] ∧
     fanOut envSF msgHighW [] = Except.ok [] ∧
     jsTruthy leaderValid.number = true ∧ isValidPhoneNumber leaderValid.number = true ∧
     (envSF.smsFails (jsToString leaderValid.number) msgHighW ||
       envSF.waFails (jsToString leaderValid.number) msgHighW) = true ∧
     createWaterTest envSF callerAsha bodyHigh dbW =
       (⟨500, RespBody.message "Internal Server Error"⟩,
        dbAfterHigh callerAsha bodyHigh dbW,
        [] ++
          (if envSF.smsFails (jsToString leaderValid.number) msgHighW then
             [Attempt.sms (jsToString leaderValid.number) msgHighW]
           else
             [Attempt.sms (jsToString leaderValid.number) msgHighW,
              Attempt.whatsapp (jsToString leaderValid.number) msgHighW]))) :=
  ⟨⟨by decide, by decide, by decide, by decide, rfl, by decide, by decide, rfl,
    (sendFailureAbortsFanOutButPersists.1 envSF callerAsha bodyMed dbW leaderValid []
       [leaderInvalid] [] (by decide) (by decide) (by decide) (by decide) rfl
       (by decide) (by decide) rfl).1⟩,
   ⟨by decide, by decide, by decide, by decide, rfl, by decide, by decide, rfl,
    (sendFailureAbortsFanOutButPersists.2 envSF callerAsha bodyHigh dbW leaderValid []
       [leaderInvalid, ashaUser] [] (by decide) (by decide) (by decide) (by decide) rfl
       (by decide) (by decide) rfl).1⟩⟩
